import Mathlib

/-!
Verification of the lead-intake service in `src/main.py` (moisecas/chatbot).

The Python source is shallowly embedded: strings are Lean `String`s, bytes of
an upload are a `List Nat`, the remote services (Supabase PostgREST, Supabase
Storage, SMTP) are modelled by an oracle (`World`) that fixes the outcome of
each external call, and the side effects actually performed are collected in
an explicit `Effects` record threaded through the handler.
-/

set_option autoImplicit false

namespace Chatbot

/-- Python `str.isspace`-style whitespace set used by `str.strip()` and the
regex class `\s` (restricted to the ASCII whitespace characters; the inputs
of interest contain no exotic Unicode spaces). -/
def pyIsSpace (c : Char) : Bool :=
  c = ' ' || c = '\t' || c = '\n' || c = '\r' || c = '\x0b' || c = '\x0c'

/-- Python `str.strip()` on a list of characters: drop leading and trailing
whitespace. -/
def pyStrip (l : List Char) : List Char :=
  ((l.dropWhile pyIsSpace).reverse.dropWhile pyIsSpace).reverse

/-- Python `str.strip()` on a `String`. -/
def pyStripS (s : String) : String :=
  String.mk (pyStrip s.data)

/-- Python `str.lower()` on one character, for the ASCII range and the
Latin-1 uppercase letters (covers every character appearing in the tokens
and content types of the source; `×` U+00D7 is not a letter and is kept). -/
def pyLowerChar (c : Char) : Char :=
  if 'A' ≤ c ∧ c ≤ 'Z' then Char.ofNat (c.toNat + 32)
  else if 'À' ≤ c ∧ c ≤ 'Þ' ∧ c ≠ '×' then Char.ofNat (c.toNat + 32)
  else c

/-- Python `str.lower()` on a `String`. -/
def pyLowerS (s : String) : String :=
  String.mk (s.data.map pyLowerChar)

/-- Character class `[^@\s]` of the e-mail regex in `_basic_email_ok`:
anything that is neither `@` nor whitespace. -/
def isLocalChar (c : Char) : Bool :=
  !(c = '@') && !(pyIsSpace c)

/-- Matcher for the regex fragment `[^@\s]*\.[^@\s]+` (anchored at both
ends), written as the usual backtracking recursion: either the current
character is the literal dot and the rest is a nonempty run of `[^@\s]`,
or the current character is consumed by the starred class. -/
def domTail : List Char → Bool
  | [] => false
  | c :: rest =>
      (c = '.' && !rest.isEmpty && rest.all isLocalChar) ||
      (isLocalChar c && domTail rest)

/-- Matcher for the regex fragment `[^@\s]+\.[^@\s]+` (anchored). -/
def domMatch : List Char → Bool
  | [] => false
  | c :: rest => isLocalChar c && domTail rest

/-- Matcher for `[^@\s]*@[^@\s]+\.[^@\s]+$`: since the class excludes `@`,
the literal `@` of the pattern must match the first `@` of the input. -/
def emailTail : List Char → Bool
  | [] => false
  | c :: rest =>
      (c = '@' && domMatch rest) ||
      (isLocalChar c && emailTail rest)

/-- Matcher for the full anchored regex `^[^@\s]+@[^@\s]+\.[^@\s]+$`. -/
def emailMatch : List Char → Bool
  | [] => false
  | c :: rest => isLocalChar c && emailTail rest

/-- `_basic_email_ok` of `src/main.py`:
`bool(re.match(r"^[^@\s]+@[^@\s]+\.[^@\s]+$", email.strip(), re.I))`.
The `re.I` flag is inert here: the pattern contains no cased literal. -/
def basicEmailOk (email : String) : Bool :=
  emailMatch (pyStrip email.data)

/-- `_clean_phone` of `src/main.py`: strip, then delete every character that
is not a digit, `+`, whitespace or a parenthesis
(`re.sub(r"[^\d\+\s\(\)]", "", s)`). -/
def cleanPhone (s : String) : String :=
  String.mk ((pyStrip s.data).filter
    (fun c => c.isDigit || c = '+' || pyIsSpace c || c = '(' || c = ')'))

/-- The truthy token set of `_truthy` in `src/main.py`. -/
def truthyTokens : List String := ["1", "true", "yes", "si", "sí", "y"]

/-- `_truthy` of `src/main.py`:
`str(s).strip().lower() in {"1","true","yes","si","sí","y"}`. -/
def truthy (s : String) : Bool :=
  truthyTokens.contains (pyLowerS (pyStripS s))

/-- Character class `[a-zA-Z0-9\.\-_]` kept by the filename sanitizer. -/
def isFilenameChar (c : Char) : Bool :=
  ('a' ≤ c && c ≤ 'z') || ('A' ≤ c && c ≤ 'Z') || ('0' ≤ c && c ≤ '9') ||
  c = '.' || c = '-' || c = '_'

/-- Scanner for `re.sub(r"[^a-zA-Z0-9\.\-_]+", "_", ·)`: each maximal run
of characters outside the class becomes a single underscore. The flag
records whether the previous character was part of such a run (in which
case no further underscore is emitted for the run). -/
def subBadRunsAux : Bool → List Char → List Char
  | _, [] => []
  | inBad, c :: rest =>
      if isFilenameChar c then c :: subBadRunsAux false rest
      else if inBad then subBadRunsAux true rest
      else '_' :: subBadRunsAux true rest

/-- `re.sub(r"[^a-zA-Z0-9\.\-_]+", "_", l)`. -/
def subBadRuns (l : List Char) : List Char :=
  subBadRunsAux false l

/-- The filename sanitization of `src/main.py` lines 747–748:
`safe_name = (up.filename or "image").strip()` then
`safe_name = re.sub(r"[^a-zA-Z0-9\.\-_]+", "_", safe_name)[:80]`.
A `None` filename is modelled as `""` (both are falsy in Python). -/
def sanitizeFilename (filename : String) : String :=
  let base := if filename = "" then "image" else filename
  String.mk ((subBadRuns (pyStrip base.data)).take 80)

/-- `_make_public_url` of `src/main.py`:
`f"{SUPABASE_URL}/storage/v1/object/public/{bucket}/{path}"`
with the configured base URL passed explicitly. -/
def makePublicUrl (supabaseUrl bucket path : String) : String :=
  supabaseUrl ++ "/storage/v1/object/public/" ++ bucket ++ "/" ++ path

/-- The content-type allow list `ALLOWED_IMAGE_TYPES` of `src/main.py`,
as the partial map from declared content type to file extension. -/
def allowedExt (ct : String) : Option String :=
  if ct = "image/jpeg" then some ".jpg"
  else if ct = "image/png" then some ".png"
  else if ct = "image/webp" then some ".webp"
  else none

/-- The environment-derived configuration of `src/main.py` used by `submit`:
`SUPABASE_URL` (already `rstrip`-ped of `/`), `SUPABASE_BUCKET`,
`MAX_IMAGE_MB` and `MAX_IMAGE_BYTES = MAX_IMAGE_MB * 1024 * 1024`. -/
structure Config where
  supabaseUrl : String
  bucket : String
  maxImageMb : Nat
  deriving Repr, DecidableEq

/-- `MAX_IMAGE_BYTES = MAX_IMAGE_MB * 1024 * 1024`. -/
def Config.maxImageBytes (cfg : Config) : Nat :=
  cfg.maxImageMb * 1024 * 1024

/-- The default configuration (`SUPABASE_BUCKET="lead-images"`,
`MAX_IMAGE_MB="5"`). -/
def defaultConfig : Config :=
  { supabaseUrl := "https://example.supabase.co"
    bucket := "lead-images"
    maxImageMb := 5 }

/-- Oracle fixing the outcome of every external call performed during one
request: the id assigned by the `leads` insert (`none` models a non-success
response or an empty returned row set), the success of the storage upload and
of the `lead_images` insert for the image processed at loop index `idx`, the
hex token produced by `uuid.uuid4().hex` at loop index `idx`, and the success
of the SMTP send. -/
structure World where
  insertLeadResult : Option Nat
  uploadOk : Nat → Bool
  insertImageOk : Nat → Bool
  uuidHex : Nat → String
  emailOk : Bool

/-- One multipart file part: declared filename (Python `None` modelled as
`""`), declared content type (likewise), raw byte content. -/
structure ImageUpload where
  filename : String
  content_type : String
  content : List Nat
  deriving Repr, DecidableEq

/-- The multipart form received by `POST /submit`. `details = None` and
`images = None` are modelled as `[]` (the handler replaces `None` by `[]`
before use). -/
structure SubmitForm where
  name : String
  email : String
  whatsapp : String
  console : String
  design_choice : String
  has_design : String
  whatsapp_prefill : String
  details : List String
  images : List ImageUpload
  deriving Repr, DecidableEq

/-- The row inserted into the `leads` table (`lead_data` in `submit`). -/
structure LeadData where
  name : String
  email : String
  whatsapp : String
  console : String
  design_choice : String
  has_design : Bool
  whatsapp_prefill : String
  deriving Repr, DecidableEq

/-- The row inserted into the `lead_images` table. -/
structure LeadImageRow where
  lead_id : Nat
  storage_bucket : String
  storage_path : String
  public_url : String
  original_filename : String
  content_type : String
  size_bytes : Nat
  details : String
  deriving Repr, DecidableEq

/-- The persistence / storage / notification side effects actually carried
out while handling one request, in order of occurrence. -/
structure Effects where
  leadsInserted : List LeadData
  storageUploads : List (String × String)
  leadImageRows : List LeadImageRow
  emailsSent : Nat
  deriving Repr, DecidableEq

/-- No side effect performed yet. -/
def emptyEffects : Effects :=
  { leadsInserted := [], storageUploads := [], leadImageRows := [], emailsSent := 0 }

/-- Result of the image loop: either all images processed (with the
accumulated effects) or an `HTTPException` raised part-way (status, detail,
and the effects performed before the raise). -/
inductive StepResult where
  | ok (eff : Effects)
  | err (status : Nat) (detail : String) (eff : Effects)
  deriving Repr, DecidableEq

/-- The effects carried by a step outcome, whether it succeeded or raised. -/
def StepResult.effects : StepResult → Effects
  | .ok eff => eff
  | .err _ _ eff => eff

/-- Response of the `submit` endpoint: the 200 JSON body
`{"ok": true, "lead_id": ...}` or an `HTTPException` (status, detail). -/
inductive SubmitResult where
  | success (lead_id : Nat)
  | httpError (status : Nat) (detail : String)
  deriving Repr, DecidableEq

/-- The per-image loop of `submit` (`src/main.py` lines 732–766), processing
`images` starting at enumerate index `idx`. For each image it: normalizes
the declared content type (`(up.content_type or "").lower().strip()`),
rejects a type outside the allow list (400), reads the content, rejects an
empty body (400) and an oversized body (400), sanitizes the filename, builds
the storage path `f"{lead_id}/{uuid.uuid4().hex}{ext}"`, uploads to storage
(a non-success response raises 500), computes the public URL, and inserts the
`lead_images` row (a non-success response raises 500). The dynamic response
text interpolated into the two 500 messages is not modelled. `details[idx]`
is modelled with `getD` (the index is in range whenever the loop is reached,
thanks to the count check). -/
def processImages (cfg : Config) (w : World) (lead_id : Nat)
    (dets : List String) : Nat → List ImageUpload → Effects → StepResult
  | _, [], eff => .ok eff
  | idx, up :: rest, eff =>
      let ct := pyStripS (pyLowerS up.content_type)
      match allowedExt ct with
      | none => .err 400 ("Tipo de imagen no permitido: " ++ ct ++ ". Usa JPG/PNG/WEBP.") eff
      | some ext =>
          let size_bytes := up.content.length
          if size_bytes ≤ 0 then .err 400 "Una imagen viene vacía." eff
          else if size_bytes > cfg.maxImageBytes then
            .err 400 ("Imagen supera el máximo permitido (" ++ toString cfg.maxImageMb ++ "MB).") eff
          else
            let safe_name := sanitizeFilename up.filename
            let path := toString lead_id ++ "/" ++ w.uuidHex idx ++ ext
            if w.uploadOk idx then
              let eff1 := { eff with storageUploads := eff.storageUploads ++ [(cfg.bucket, path)] }
              let public_url := makePublicUrl cfg.supabaseUrl cfg.bucket path
              let row : LeadImageRow :=
                { lead_id := lead_id
                  storage_bucket := cfg.bucket
                  storage_path := path
                  public_url := public_url
                  original_filename := safe_name
                  content_type := ct
                  size_bytes := size_bytes
                  details := pyStripS (dets.getD idx "") }
              if w.insertImageOk idx then
                let eff2 := { eff1 with leadImageRows := eff1.leadImageRows ++ [row] }
                processImages cfg w lead_id dets (idx + 1) rest eff2
              else .err 500 "Error insertando lead_image." eff1
            else .err 500 "Error subiendo a Storage." eff

/-- The `lead_data` dict built by `submit` (lines 716–724) from the
normalized form fields. -/
def mkLeadData (f : SubmitForm) : LeadData :=
  { name := pyStripS f.name
    email := pyStripS f.email
    whatsapp := cleanPhone f.whatsapp
    console := pyStripS f.console
    design_choice := pyStripS f.design_choice
    has_design := truthy f.has_design
    whatsapp_prefill := pyStripS f.whatsapp_prefill }

/-- Effects state right after the successful `leads` insert. -/
def leadEffects (f : SubmitForm) : Effects :=
  { emptyEffects with leadsInserted := [mkLeadData f] }

/-- The image phase of `submit`: the loop of lines 731–766 runs only when
`has_design_bool` is truthy. -/
def imagesPhase (cfg : Config) (w : World) (lead_id : Nat) (f : SubmitForm) : StepResult :=
  if truthy f.has_design then
    processImages cfg w lead_id f.details 0 f.images (leadEffects f)
  else .ok (leadEffects f)

/-- The `POST /submit` handler of `src/main.py` (lines 675–799). Field
validation (name / email / whatsapp / console), the custom-design rules
(at least one image, one detail per image, no blank detail), the `leads`
insert, the image loop, and the notification email whose failure raises a
500 after the lead has been saved. The email body text and the dynamic
error text interpolated into the 500 messages are not modelled; the number
of successfully sent emails is recorded in the effects. -/
def submit (cfg : Config) (w : World) (f : SubmitForm) : SubmitResult × Effects :=
  if pyStripS f.name = "" then (.httpError 400 "Nombre es obligatorio.", emptyEffects)
  else if !basicEmailOk (pyStripS f.email) then (.httpError 400 "Correo inválido.", emptyEffects)
  else if cleanPhone f.whatsapp = "" then (.httpError 400 "WhatsApp es obligatorio.", emptyEffects)
  else if pyStripS f.console = "" then (.httpError 400 "Consola es obligatoria.", emptyEffects)
  else if truthy f.has_design ∧ f.images.length < 1 then
    (.httpError 400 "Debes subir al menos 1 imagen.", emptyEffects)
  else if truthy f.has_design ∧ f.details.length ≠ f.images.length then
    (.httpError 400 "Cada imagen debe tener su detalle (mismo número).", emptyEffects)
  else if truthy f.has_design ∧ f.details.any (fun d => pyStripS d = "") then
    (.httpError 400 "Cada imagen debe tener detalles (no vacío).", emptyEffects)
  else
    match w.insertLeadResult with
    | none => (.httpError 500 "Error insertando lead.", emptyEffects)
    | some lead_id =>
        match imagesPhase cfg w lead_id f with
        | .err st d eff => (.httpError st d, eff)
        | .ok eff1 =>
            if w.emailOk then
              (.success lead_id, { eff1 with emailsSent := eff1.emailsSent + 1 })
            else
              (.httpError 500 "Lead guardado pero falló el correo: [error]", eff1)

/-- A submission fails field validation (the checks of `submit` that precede
the `leads` insert): blank name, bad email, blank cleaned phone, blank
console, or — when the design flag is truthy — no image, a detail count
different from the image count, or a blank detail. -/
def fieldValidationFails (f : SubmitForm) : Prop :=
  pyStripS f.name = "" ∨
  basicEmailOk (pyStripS f.email) = false ∨
  cleanPhone f.whatsapp = "" ∨
  pyStripS f.console = "" ∨
  (truthy f.has_design ∧
    (f.images.length < 1 ∨
     f.details.length ≠ f.images.length ∨
     f.details.any (fun d => pyStripS d = "") = true))

instance (f : SubmitForm) : Decidable (fieldValidationFails f) := by
  unfold fieldValidationFails
  infer_instance

/-- The `local@domain.tld` shape as the spec words it: one or more
non-space / non-`@` characters, a single `@` (forced single because both
sides exclude `@`), then a domain containing at least one dot with
characters on both sides, and no embedded whitespace anywhere. Case plays
no role: the shape constrains no letter case. -/
def EmailShapeSpec (email : String) : Prop :=
  ∃ localPart dom1 dom2 : List Char,
    localPart ≠ [] ∧ dom1 ≠ [] ∧ dom2 ≠ [] ∧
    (∀ c ∈ localPart ++ dom1 ++ dom2, ¬c = '@' ∧ ¬pyIsSpace c = true) ∧
    pyStrip email.data = localPart ++ '@' :: (dom1 ++ '.' :: dom2)

/-- The filename sanitization as the spec words it: every character outside
`[A-Za-z0-9.\-_]` is stripped (deleted), then the result is truncated to 80
characters. -/
def sanitizeFilenameSpec (filename : String) : String :=
  let base := if filename = "" then "image" else filename
  String.mk (((pyStrip base.data).filter isFilenameChar).take 80)

/-- A world in which every external call succeeds: the `leads` insert
returns id 1, uploads and `lead_images` inserts succeed, every `uuid4().hex`
is a fixed token, and the SMTP send succeeds. -/
def allOkWorld : World :=
  { insertLeadResult := some 1
    uploadOk := fun _ => true
    insertImageOk := fun _ => true
    uuidHex := fun _ => "cafebabe"
    emailOk := true }

/-- Modelled from the spec: a static combo catalog entry (§3 "Combo") —
identifier, display title, integer price, optional console-model
eligibility restriction. No combo/pricing code exists in `src/main.py`
(the only prices there are display-only placeholders in the HTML). -/
structure Combo where
  id : String
  title : String
  price : Nat
  eligibleConsoles : Option (List String)
  deriving Repr, DecidableEq

/-- Modelled from the spec: the fixed extra-control add-on amount (§8:
"the fixed add-on amount observed" is 16000). -/
def EXTRA_CONTROL_ADDON : Nat := 16000

/-- Modelled from the spec: the combo catalog entries whose data §8 fixes —
`c1` with no restriction and total 80000, `c6` restricted to
`{"PS5 Fat", "PS5 Slim"}` with total 40000 (both totals observed with
`extra = false`). Titles are not fixed by the spec. -/
def comboCatalog : List Combo :=
  [ { id := "c1", title := "Combo c1", price := 80000, eligibleConsoles := none },
    { id := "c6", title := "Combo c6", price := 40000,
      eligibleConsoles := some ["PS5 Fat", "PS5 Slim"] } ]

/-- Modelled from the spec: look a combo up by its identifier. -/
def findCombo (comboId : String) : Option Combo :=
  comboCatalog.find? (fun c => c.id == comboId)

/-- Modelled from the spec (§3 "Order total", §4.2): the derived order
total — the selected combo's price plus the fixed add-on when the
extra-control flag is set, else plus 0; `none` when the combo id is not in
the catalog. -/
def orderTotal (comboId : String) (extra : Bool) : Option Nat :=
  (findCombo comboId).map
    (fun c => c.price + (if extra then EXTRA_CONTROL_ADDON else 0))

/-- A submission failing field validation: the design flag is truthy but no
image is attached (all other fields valid). -/
def c1BadForm : SubmitForm :=
  { name := "Ana", email := "ana@example.com", whatsapp := "300 123 4567"
    console := "PS5", design_choice := "custom", has_design := "yes"
    whatsapp_prefill := "", details := [], images := [] }

/-- A submission passing field validation whose single image has the
disallowed content type `image/gif`. -/
def c1GifForm : SubmitForm :=
  { name := "Ana", email := "ana@example.com", whatsapp := "300 123 4567"
    console := "PS5", design_choice := "custom", has_design := "yes"
    whatsapp_prefill := "", details := ["frontal"]
    images := [{ filename := "x.gif", content_type := "image/gif", content := [1] }] }

/-- A valid gallery-design submission (no uploads). -/
def c2Form : SubmitForm :=
  { name := "Ana", email := "ana@example.com", whatsapp := "300 123 4567"
    console := "PS5", design_choice := "view_designs", has_design := "no"
    whatsapp_prefill := "", details := [], images := [] }

/-- A custom-design submission with one image but two detail notes. -/
def c4Form : SubmitForm :=
  { name := "Ana", email := "ana@example.com", whatsapp := "300 123 4567"
    console := "PS5", design_choice := "custom", has_design := "yes"
    whatsapp_prefill := "", details := ["a", "b"]
    images := [{ filename := "x.png", content_type := "image/png", content := [1] }] }

/-! ## Theorems -/

/-- C9: `_truthy` returns `true` exactly when the trimmed, lower-cased input
is one of the six tokens `1`, `true`, `yes`, `si`, `sí`, `y`, and `false`
for every other string. It is a total function of the input string (Lean
functions are total; no exception path exists in the source either). -/
theorem truthy_iff_token (s : String) :
    truthy s = true ↔
      (pyLowerS (pyStripS s) = "1" ∨ pyLowerS (pyStripS s) = "true" ∨
       pyLowerS (pyStripS s) = "yes" ∨ pyLowerS (pyStripS s) = "si" ∨
       pyLowerS (pyStripS s) = "sí" ∨ pyLowerS (pyStripS s) = "y") := by
  rw [truthy, List.elem_iff]
  simp [truthyTokens]

/-- C10 (spec-modelled): for every combo identifier resolving in the
catalog, the order total is the combo's price for `extra = false` and the
combo's price plus the fixed 16000 add-on for `extra = true`; being a pure
function of `(comboId, extra)`, it is deterministic. -/
theorem orderTotal_addon (comboId : String) (c : Combo)
    (h : findCombo comboId = some c) :
    orderTotal comboId false = some c.price ∧
    orderTotal comboId true = some (c.price + 16000) := by
  simp [orderTotal, h, EXTRA_CONTROL_ADDON]

/-- Witness for C10: combo `c6` totals 40000 without and 40000 + 16000 with
the extra-control add-on. -/
theorem orderTotal_addon_witness :
    orderTotal "c6" false = some 40000 ∧
    orderTotal "c6" true = some (40000 + 16000) :=
  orderTotal_addon "c6"
    { id := "c6", title := "Combo c6", price := 40000,
      eligibleConsoles := some ["PS5 Fat", "PS5 Slim"] } rfl

/-- Splitting a list at a separator absent from both prefixes is unique. -/
theorem append_sep_inj {sep : Char} :
    ∀ (b1 p1 b2 p2 : List Char), sep ∉ b1 → sep ∉ b2 →
      b1 ++ sep :: p1 = b2 ++ sep :: p2 → b1 = b2 ∧ p1 = p2 := by
  intro b1
  induction b1 with
  | nil =>
      intro p1 b2 p2 _ h2 heq
      cases b2 with
      | nil => simpa using heq
      | cons c b2' =>
          simp only [List.nil_append, List.cons_append, List.cons.injEq] at heq
          exact absurd heq.1.symm (by simp at h2; tauto)
  | cons c b1' ih =>
      intro p1 b2 p2 h1 h2 heq
      cases b2 with
      | nil =>
          simp only [List.cons_append, List.nil_append, List.cons.injEq] at heq
          exact absurd heq.1 (by simp at h1; tauto)
      | cons c2 b2' =>
          simp only [List.cons_append, List.cons.injEq] at heq
          have h1' : sep ∉ b1' := fun hm => h1 (List.mem_cons_of_mem _ hm)
          have h2' : sep ∉ b2' := fun hm => h2 (List.mem_cons_of_mem _ hm)
          obtain ⟨hb, hp⟩ := ih p1 b2' p2 h1' h2' heq.2
          exact ⟨by rw [heq.1, hb], hp⟩

/-- Counterexample to C8 as stated: with a bucket name containing `/`, two
distinct (bucket, path) pairs produce the same public URL, so bucket and
path cannot be recovered from the URL in general. -/
theorem makePublicUrl_not_recoverable :
    makePublicUrl "https://u" "a/b" "c" = makePublicUrl "https://u" "a" "b/c" ∧
    ¬(("a/b", "c") = (("a" : String), ("b/c" : String))) := by
  exact ⟨rfl, by decide⟩

/-- C8 amended: the public URL is the fixed concatenation
`{base}/storage/v1/object/public/{bucket}/{path}`, it is a pure function of
bucket and path (equal inputs yield equal URLs), and — provided the bucket
name contains no `/`, as the default bucket `lead-images` does — bucket and
path are recoverable from the URL. -/
theorem makePublicUrl_shape_det_recovery (base b1 p1 b2 p2 : String)
    (h1 : '/' ∉ b1.data) (h2 : '/' ∉ b2.data) :
    makePublicUrl base b1 p1 =
      base ++ "/storage/v1/object/public/" ++ b1 ++ "/" ++ p1 ∧
    (b1 = b2 → p1 = p2 → makePublicUrl base b1 p1 = makePublicUrl base b2 p2) ∧
    (makePublicUrl base b1 p1 = makePublicUrl base b2 p2 → b1 = b2 ∧ p1 = p2) := by
  refine ⟨rfl, fun hb hp => by rw [hb, hp], fun heq => ?_⟩
  have hap : ∀ x y : String, (x ++ y).data = x.data ++ y.data := fun _ _ => rfl
  have h := congrArg String.data heq
  simp only [makePublicUrl, hap, List.append_assoc] at h
  have h' := List.append_cancel_left (List.append_cancel_left h)
  have hsl : ("/" : String).data ++ p1.data = '/' :: p1.data := rfl
  have hsl2 : ("/" : String).data ++ p2.data = '/' :: p2.data := rfl
  rw [hsl, hsl2] at h'
  obtain ⟨hb, hp⟩ := append_sep_inj b1.data p1.data b2.data p2.data h1 h2 h'
  exact ⟨String.ext hb, String.ext hp⟩

/-- Witness for C8 amended: at the default bucket `lead-images` (slash-free)
and a concrete path, the URL has the stated shape and recovery applies. -/
theorem makePublicUrl_shape_det_recovery_witness :
    makePublicUrl "https://u" "lead-images" "1/cafebabe.jpg" =
      "https://u" ++ "/storage/v1/object/public/" ++ "lead-images" ++ "/" ++
        "1/cafebabe.jpg" ∧
    ("lead-images" : String) = "lead-images" ∧ ("1/cafebabe.jpg" : String) = "1/cafebabe.jpg" := by
  have h := makePublicUrl_shape_det_recovery "https://u" "lead-images"
    "1/cafebabe.jpg" "lead-images" "1/cafebabe.jpg" (by decide) (by decide)
  exact ⟨h.1, h.2.2 rfl⟩

/-- Every character emitted by the sanitizing scanner lies in the kept
class `[a-zA-Z0-9.\-_]` (the replacement `_` itself is in the class). -/
theorem subBadRunsAux_mem :
    ∀ (b : Bool) (l : List Char) (c : Char),
      c ∈ subBadRunsAux b l → isFilenameChar c = true := by
  intro b l
  induction l generalizing b with
  | nil => intro c hc; simp [subBadRunsAux] at hc
  | cons a rest ih =>
      intro c hc
      by_cases ha : isFilenameChar a
      · simp only [subBadRunsAux, if_pos ha, List.mem_cons] at hc
        rcases hc with hc | hc
        · rw [hc]; exact ha
        · exact ih false c hc
      · simp only [subBadRunsAux, if_neg ha] at hc
        cases b with
        | true => exact ih true c hc
        | false =>
            rw [if_neg (by decide)] at hc
            rcases List.mem_cons.mp hc with hc | hc
            · rw [hc]; decide
            · exact ih true c hc

/-- Counterexample to C7 as stated: the code *replaces* each run of
characters outside `[A-Za-z0-9.\-_]` by an underscore; it does not strip
them. On `"my photo.png"` the code yields `"my_photo.png"`, while
stripping (as the spec words it) would yield `"myphoto.png"`. -/
theorem sanitizeFilename_ne_strip :
    sanitizeFilename "my photo.png" = "my_photo.png" ∧
    sanitizeFilenameSpec "my photo.png" = "myphoto.png" ∧
    sanitizeFilename "my photo.png" ≠ sanitizeFilenameSpec "my photo.png" :=
  ⟨rfl, rfl, by decide⟩

/-- C7 amended: the sanitized filename replaces each maximal run of
characters outside `[A-Za-z0-9.\-_]` with a single `_` and truncates to 80
characters (so it is at most 80 long and consists only of kept-class
characters), and it is stored only in the `original_filename` field of the
`lead_images` row — the storage path is
`{lead_id}/{uuid-token}{extension}`, independent of the filename. -/
theorem sanitize_row_props (cfg : Config) (w : World) (lead_id : Nat)
    (dets : List String) (idx : Nat) (up : ImageUpload) (eff : Effects)
    (ext : String)
    (hct : allowedExt (pyStripS (pyLowerS up.content_type)) = some ext)
    (hsz : ¬up.content.length ≤ 0) (hmax : ¬up.content.length > cfg.maxImageBytes)
    (hup : w.uploadOk idx = true) (hins : w.insertImageOk idx = true) :
    ∃ row : LeadImageRow,
      processImages cfg w lead_id dets idx [up] eff =
        .ok { eff with
              storageUploads := eff.storageUploads ++ [(cfg.bucket, row.storage_path)]
              leadImageRows := eff.leadImageRows ++ [row] } ∧
      row.storage_path = toString lead_id ++ "/" ++ w.uuidHex idx ++ ext ∧
      row.original_filename = sanitizeFilename up.filename ∧
      row.original_filename.length ≤ 80 ∧
      (∀ c ∈ row.original_filename.data, isFilenameChar c = true) := by
  refine ⟨{ lead_id := lead_id
            storage_bucket := cfg.bucket
            storage_path := toString lead_id ++ "/" ++ w.uuidHex idx ++ ext
            public_url := makePublicUrl cfg.supabaseUrl cfg.bucket
              (toString lead_id ++ "/" ++ w.uuidHex idx ++ ext)
            original_filename := sanitizeFilename up.filename
            content_type := pyStripS (pyLowerS up.content_type)
            size_bytes := up.content.length
            details := pyStripS (dets.getD idx "") }, ?_, rfl, rfl, ?_, ?_⟩
  · simp only [processImages, hct, if_neg hsz, if_neg hmax, hup, hins, if_pos]
  · show ((subBadRuns (pyStrip _)).take 80).length ≤ 80
    rw [List.length_take]
    exact Nat.min_le_left _ _
  · intro c hc
    exact subBadRunsAux_mem false _ c (List.take_subset 80 _ hc)

/-- Witness for C7 amended: a concrete PNG upload named `"my photo.png"`
produces a row whose path is `1/cafebabe.png` and whose stored filename is
the sanitized name, at most 80 characters, all in the kept class. -/
theorem sanitize_row_props_witness :
    ∃ row : LeadImageRow,
      processImages defaultConfig allOkWorld 1 ["d"] 0
          [{ filename := "my photo.png", content_type := "image/png",
             content := [0, 1] }] emptyEffects =
        .ok { emptyEffects with
              storageUploads :=
                emptyEffects.storageUploads ++ [(defaultConfig.bucket, row.storage_path)]
              leadImageRows := emptyEffects.leadImageRows ++ [row] } ∧
      row.storage_path = toString 1 ++ "/" ++ allOkWorld.uuidHex 0 ++ ".png" ∧
      row.original_filename = sanitizeFilename "my photo.png" ∧
      row.original_filename.length ≤ 80 ∧
      (∀ c ∈ row.original_filename.data, isFilenameChar c = true) :=
  sanitize_row_props defaultConfig allOkWorld 1 ["d"] 0
    { filename := "my photo.png", content_type := "image/png", content := [0, 1] }
    emptyEffects ".png" rfl (by decide) (by decide) rfl rfl

/-- Characterization of the `[^@\s]*\.[^@\s]+` matcher: it accepts exactly
the lists that split as `a ++ '.' :: b` with `a` made of class characters
and `b` a nonempty run of class characters. -/
theorem domTail_iff (l : List Char) :
    domTail l = true ↔
      ∃ a b : List Char, a.all isLocalChar = true ∧ b ≠ [] ∧
        b.all isLocalChar = true ∧ l = a ++ '.' :: b := by
  induction l with
  | nil =>
      simp only [domTail]
      constructor
      · intro h; cases h
      · rintro ⟨a, b, -, -, -, hl⟩
        simp at hl
  | cons c rest ih =>
      simp only [domTail]
      constructor
      · intro h
        simp only [Bool.or_eq_true, Bool.and_eq_true] at h
        rcases h with ⟨⟨hdot, hne⟩, hall⟩ | ⟨hloc, ht⟩
        · have hc : c = '.' := of_decide_eq_true hdot
          have hr : rest ≠ [] := by
            simpa using hne
          exact ⟨[], rest, by simp, hr, hall, by simp [hc]⟩
        · obtain ⟨a, b, ha, hb, hball, hl⟩ := ih.mp ht
          exact ⟨c :: a, b, by simp [List.all_cons, hloc, ha], hb, hball, by simp [hl]⟩
      · rintro ⟨a, b, ha, hb, hball, hl⟩
        simp only [Bool.or_eq_true, Bool.and_eq_true]
        cases a with
        | nil =>
            simp only [List.nil_append, List.cons.injEq] at hl
            refine Or.inl ⟨⟨decide_eq_true hl.1, ?_⟩, by rw [hl.2]; exact hball⟩
            rw [hl.2]
            simpa using hb
        | cons a0 a' =>
            simp only [List.cons_append, List.cons.injEq] at hl
            rw [List.all_cons, Bool.and_eq_true] at ha
            refine Or.inr ⟨by rw [hl.1]; exact ha.1, ?_⟩
            exact ih.mpr ⟨a', b, ha.2, hb, hball, hl.2⟩

/-- Characterization of the `[^@\s]+\.[^@\s]+` matcher. -/
theorem domMatch_iff (l : List Char) :
    domMatch l = true ↔
      ∃ d1 d2 : List Char, d1 ≠ [] ∧ d1.all isLocalChar = true ∧ d2 ≠ [] ∧
        d2.all isLocalChar = true ∧ l = d1 ++ '.' :: d2 := by
  cases l with
  | nil =>
      simp only [domMatch]
      constructor
      · intro h; cases h
      · rintro ⟨d1, d2, -, -, -, -, hl⟩
        simp at hl
  | cons c rest =>
      simp only [domMatch, Bool.and_eq_true]
      rw [domTail_iff]
      constructor
      · rintro ⟨hloc, a, b, ha, hb, hball, hl⟩
        exact ⟨c :: a, b, by simp, by simp [List.all_cons, hloc, ha], hb, hball,
          by simp [hl]⟩
      · rintro ⟨d1, d2, hne, h1, hb, hball, hl⟩
        cases d1 with
        | nil => exact absurd rfl hne
        | cons a0 a' =>
            simp only [List.cons_append, List.cons.injEq] at hl
            rw [List.all_cons, Bool.and_eq_true] at h1
            exact ⟨by rw [hl.1]; exact h1.1, a', d2, h1.2, hb, hball, hl.2⟩

/-- Characterization of the `[^@\s]*@[^@\s]+\.[^@\s]+` matcher: the `@`
consumed by the pattern is the first `@` of the input, and what follows
must satisfy `domMatch`. -/
theorem emailTail_iff (l : List Char) :
    emailTail l = true ↔
      ∃ loc rest : List Char, loc.all isLocalChar = true ∧
        l = loc ++ '@' :: rest ∧ domMatch rest = true := by
  induction l with
  | nil =>
      simp only [emailTail]
      constructor
      · intro h; cases h
      · rintro ⟨loc, rest, -, hl, -⟩
        simp at hl
  | cons c tl ih =>
      simp only [emailTail]
      constructor
      · intro h
        simp only [Bool.or_eq_true, Bool.and_eq_true] at h
        rcases h with ⟨hat, hdom⟩ | ⟨hloc, ht⟩
        · exact ⟨[], tl, by simp, by simp [of_decide_eq_true hat], hdom⟩
        · obtain ⟨loc, rest, hall, hl, hdom⟩ := ih.mp ht
          exact ⟨c :: loc, rest, by simp [List.all_cons, hloc, hall], by simp [hl], hdom⟩
      · rintro ⟨loc, rest, hall, hl, hdom⟩
        simp only [Bool.or_eq_true, Bool.and_eq_true]
        cases loc with
        | nil =>
            simp only [List.nil_append, List.cons.injEq] at hl
            exact Or.inl ⟨decide_eq_true hl.1, by rw [hl.2]; exact hdom⟩
        | cons l0 l' =>
            simp only [List.cons_append, List.cons.injEq] at hl
            rw [List.all_cons, Bool.and_eq_true] at hall
            refine Or.inr ⟨by rw [hl.1]; exact hall.1, ?_⟩
            exact ih.mpr ⟨l', rest, hall.2, hl.2, hdom⟩

/-- Characterization of the full anchored e-mail regex
`^[^@\s]+@[^@\s]+\.[^@\s]+$`. -/
theorem emailMatch_iff (l : List Char) :
    emailMatch l = true ↔
      ∃ loc rest : List Char, loc ≠ [] ∧ loc.all isLocalChar = true ∧
        l = loc ++ '@' :: rest ∧ domMatch rest = true := by
  cases l with
  | nil =>
      simp only [emailMatch]
      constructor
      · intro h; cases h
      · rintro ⟨loc, rest, -, -, hl, -⟩
        simp at hl
  | cons c tl =>
      simp only [emailMatch, Bool.and_eq_true]
      rw [emailTail_iff]
      constructor
      · rintro ⟨hloc, loc, rest, hall, hl, hdom⟩
        exact ⟨c :: loc, rest, by simp, by simp [List.all_cons, hloc, hall],
          by simp [hl], hdom⟩
      · rintro ⟨loc, rest, hne, hall, hl, hdom⟩
        cases loc with
        | nil => exact absurd rfl hne
        | cons l0 l' =>
            simp only [List.cons_append, List.cons.injEq] at hl
            rw [List.all_cons, Bool.and_eq_true] at hall
            exact ⟨by rw [hl.1]; exact hall.1, l', rest, hall.2, hl.2, hdom⟩

/-- The class test `isLocalChar` in propositional form. -/
theorem isLocalChar_iff (c : Char) :
    isLocalChar c = true ↔ ¬c = '@' ∧ ¬pyIsSpace c = true := by
  simp [isLocalChar]

/-- C6: `_basic_email_ok` accepts a string exactly when its stripped form
has the `local@domain.tld` shape: a nonempty run of non-space / non-`@`
characters, one `@`, and a domain containing a dot with non-space /
non-`@` characters on both sides. Case never matters: the pattern
constrains no letter case (`re.I` is inert). -/
theorem basicEmailOk_iff_shape (email : String) :
    basicEmailOk email = true ↔ EmailShapeSpec email := by
  rw [basicEmailOk, emailMatch_iff, EmailShapeSpec]
  constructor
  · rintro ⟨loc, rest, hne, hall, hl, hdom⟩
    obtain ⟨d1, d2, hd1ne, hd1, hd2ne, hd2, hr⟩ := (domMatch_iff rest).mp hdom
    refine ⟨loc, d1, d2, hne, hd1ne, hd2ne, ?_, by rw [hl, hr]⟩
    intro c hc
    rw [← isLocalChar_iff]
    simp only [List.append_assoc, List.mem_append] at hc
    rcases hc with hc | hc | hc
    · exact List.all_eq_true.mp hall c hc
    · exact List.all_eq_true.mp hd1 c hc
    · exact List.all_eq_true.mp hd2 c hc
  · rintro ⟨loc, d1, d2, hne, hd1ne, hd2ne, hcls, hl⟩
    have hmem : ∀ (s : List Char), (∀ c ∈ s, c ∈ loc ++ d1 ++ d2) →
        s.all isLocalChar = true := by
      intro s hs
      rw [List.all_eq_true]
      intro c hc
      rw [isLocalChar_iff]
      exact hcls c (hs c hc)
    refine ⟨loc, d1 ++ '.' :: d2, hne,
      hmem loc (fun c hc => by simp [hc]), hl, ?_⟩
    exact (domMatch_iff _).mpr ⟨d1, d2, hd1ne,
      hmem d1 (fun c hc => by simp [hc]), hd2ne,
      hmem d2 (fun c hc => by simp [hc]), rfl⟩

/-- The image loop never touches the `leads` table: whatever its outcome,
the `leadsInserted` component of the effects is unchanged. -/
theorem processImages_leadsInserted (cfg : Config) (w : World) (lead_id : Nat)
    (dets : List String) :
    ∀ (imgs : List ImageUpload) (idx : Nat) (eff : Effects),
      (processImages cfg w lead_id dets idx imgs eff).effects.leadsInserted =
        eff.leadsInserted := by
  intro imgs
  induction imgs with
  | nil => intro idx eff; rfl
  | cons up rest ih =>
      intro idx eff
      simp only [processImages]
      split
      · rfl
      · split_ifs with h1 h2 h3 h4
        · rfl
        · rfl
        · exact ih (idx + 1) _
        · rfl
        · rfl

/-- Whatever the image phase does, the lead row inserted just before it
stays inserted. -/
theorem imagesPhase_leads (cfg : Config) (w : World) (lead_id : Nat)
    (f : SubmitForm) :
    (imagesPhase cfg w lead_id f).effects.leadsInserted = [mkLeadData f] := by
  rw [imagesPhase]
  split_ifs with h
  · rw [processImages_leadsInserted]; rfl
  · rfl

/-- A submission failing field validation is answered with a 400 and a
nonempty message, and no side effect is performed. -/
theorem submit_field_fail (cfg : Config) (w : World) (f : SubmitForm)
    (h : fieldValidationFails f) :
    ∃ d, d ≠ "" ∧ submit cfg w f = (.httpError 400 d, emptyEffects) := by
  simp only [submit]
  split_ifs with h1 h2 h3 h4 h5 h6 h7 <;>
    first
      | exact ⟨_, by decide, rfl⟩
      | · exfalso
          rcases h with hc | hc | hc | hc | ⟨ht, hc | hc | hc⟩
          · exact h1 hc
          · exact h2 (by rw [hc]; rfl)
          · exact h3 hc
          · exact h4 hc
          · exact h5 ⟨ht, hc⟩
          · exact h6 ⟨ht, hc⟩
          · exact h7 ⟨ht, hc⟩

/-- A submission passing field validation whose `leads` insert succeeded
continues with the image phase and the notification email. -/
theorem submit_after_insert (cfg : Config) (w : World) (f : SubmitForm)
    (lead_id : Nat) (hok : ¬fieldValidationFails f)
    (hins : w.insertLeadResult = some lead_id) :
    submit cfg w f =
      (match imagesPhase cfg w lead_id f with
       | .err st d eff => (.httpError st d, eff)
       | .ok eff1 =>
           if w.emailOk then
             (.success lead_id, { eff1 with emailsSent := eff1.emailsSent + 1 })
           else
             (.httpError 500 "Lead guardado pero falló el correo: [error]", eff1)) := by
  simp only [fieldValidationFails, not_or] at hok
  obtain ⟨ha, hb, hc, hd, he⟩ := hok
  have hb' : basicEmailOk (pyStripS f.email) = true := by
    revert hb
    cases basicEmailOk (pyStripS f.email) <;> simp
  simp only [submit, if_neg ha, hb', Bool.not_true, if_neg hc, if_neg hd]
  rw [if_neg (by decide : ¬false = true)]
  rw [if_neg (fun hx => he ⟨hx.1, Or.inl hx.2⟩)]
  rw [if_neg (fun hx => he ⟨hx.1, Or.inr (Or.inl hx.2)⟩)]
  rw [if_neg (fun hx => he ⟨hx.1, Or.inr (Or.inr hx.2)⟩)]
  rw [hins]

/-- Counterexample to C1 as stated: a submission whose single image has the
disallowed type `image/gif` is answered 400 (`UnsupportedMediaType`-class),
yet the lead record has already been persisted — the media-validation error
is *not* detected before every persistence side effect. -/
theorem media_error_after_lead_insert :
    (submit defaultConfig allOkWorld c1GifForm).1 =
      .httpError 400 "Tipo de imagen no permitido: image/gif. Usa JPG/PNG/WEBP." ∧
    (submit defaultConfig allOkWorld c1GifForm).2.leadsInserted ≠ [] :=
  ⟨rfl, by decide⟩

/-- C1 amended: the *field*-validation errors (blank name, invalid email,
blank phone, blank console, and the custom-design rules including the
mismatched-detail-count error) are detected before any persistence side
effect — the caller gets a 400 with a nonempty message and no lead and no
lead-image row is created. The *media*-validation errors (unsupported type,
empty upload, oversized upload), however, are raised from the image loop,
which runs only after the lead row has been inserted: the 4xx response is
still produced, but the lead row persists. -/
theorem validation_before_persistence (cfg : Config) (w : World) (f : SubmitForm) :
    (fieldValidationFails f →
      ∃ d, d ≠ "" ∧ submit cfg w f = (.httpError 400 d, emptyEffects)) ∧
    (∀ lead_id st d eff, ¬fieldValidationFails f →
      w.insertLeadResult = some lead_id →
      imagesPhase cfg w lead_id f = .err st d eff →
      submit cfg w f = (.httpError st d, eff) ∧
      eff.leadsInserted = [mkLeadData f]) := by
  constructor
  · exact submit_field_fail cfg w f
  · intro lead_id st d eff hok hins hstep
    refine ⟨by rw [submit_after_insert cfg w f lead_id hok hins, hstep], ?_⟩
    have h := imagesPhase_leads cfg w lead_id f
    rw [hstep] at h
    exact h

/-- Witness for C1 amended: a design submission with no image is rejected
400 with empty effects; the gif submission is rejected 400 with the lead
row already inserted. -/
theorem validation_before_persistence_witness :
    (∃ d, d ≠ "" ∧
      submit defaultConfig allOkWorld c1BadForm = (.httpError 400 d, emptyEffects)) ∧
    (submit defaultConfig allOkWorld c1GifForm =
        (.httpError 400 "Tipo de imagen no permitido: image/gif. Usa JPG/PNG/WEBP.",
          leadEffects c1GifForm) ∧
      (leadEffects c1GifForm).leadsInserted = [mkLeadData c1GifForm]) :=
  ⟨(validation_before_persistence defaultConfig allOkWorld c1BadForm).1 (by decide),
   (validation_before_persistence defaultConfig allOkWorld c1GifForm).2 1 400
     "Tipo de imagen no permitido: image/gif. Usa JPG/PNG/WEBP."
     (leadEffects c1GifForm) (by decide) rfl rfl⟩

/-- Counterexample to C2 as stated: when the notification email fails after
the lead has been persisted, the response is a 500 error (not a success
carrying the lead id), even though the lead row remains persisted. -/
theorem email_failure_no_success :
    (submit defaultConfig { allOkWorld with emailOk := false } c2Form).1 =
      .httpError 500 "Lead guardado pero falló el correo: [error]" ∧
    (submit defaultConfig { allOkWorld with emailOk := false } c2Form).2.leadsInserted ≠ [] :=
  ⟨rfl, by decide⟩

/-- C2 amended: a failure of the notification email never reverses the
completed persistence — the lead row stays inserted — but the response does
not report success: it is a 500 whose message says the lead was saved and
the email failed, and the created lead identifier is not returned. -/
theorem email_failure_preserves_lead (cfg : Config) (w : World) (f : SubmitForm)
    (lead_id : Nat) (eff1 : Effects)
    (hok : ¬fieldValidationFails f)
    (hins : w.insertLeadResult = some lead_id)
    (hstep : imagesPhase cfg w lead_id f = .ok eff1)
    (hmail : w.emailOk = false) :
    submit cfg w f =
      (.httpError 500 "Lead guardado pero falló el correo: [error]", eff1) ∧
    eff1.leadsInserted = [mkLeadData f] := by
  constructor
  · rw [submit_after_insert cfg w f lead_id hok hins, hstep]
    simp [hmail]
  · have h := imagesPhase_leads cfg w lead_id f
    rw [hstep] at h
    exact h

/-- Witness for C2 amended: a concrete valid gallery submission with a
failing SMTP send yields the 500 partial-success response with the lead row
persisted. -/
theorem email_failure_preserves_lead_witness :
    submit defaultConfig { allOkWorld with emailOk := false } c2Form =
      (.httpError 500 "Lead guardado pero falló el correo: [error]", leadEffects c2Form) ∧
    (leadEffects c2Form).leadsInserted = [mkLeadData c2Form] :=
  email_failure_preserves_lead defaultConfig { allOkWorld with emailOk := false }
    c2Form 1 (leadEffects c2Form) (by decide) rfl rfl rfl

/-- Counterexample to C3 as stated: an image that is both empty and of a
disallowed content type fails with the unsupported-type message, not with
the empty-upload message — the content-type check runs first. -/
theorem empty_gif_fails_unsupported :
    processImages defaultConfig allOkWorld 1 ["d"] 0
        [{ filename := "x.gif", content_type := "image/gif", content := [] }]
        emptyEffects =
      .err 400 "Tipo de imagen no permitido: image/gif. Usa JPG/PNG/WEBP." emptyEffects ∧
    ("Tipo de imagen no permitido: image/gif. Usa JPG/PNG/WEBP." : String) ≠
      "Una imagen viene vacía." :=
  ⟨rfl, by decide⟩

/-- C3 amended: the media pipeline checks each image in the fixed order
content type first (`UnsupportedMediaType`), then emptiness
(`EmptyUpload`), then the size ceiling (`PayloadTooLarge`); in particular
an image that is both empty and of a disallowed type fails with
`UnsupportedMediaType`. -/
theorem media_check_order (cfg : Config) (w : World) (lead_id : Nat)
    (dets : List String) (idx : Nat) (up : ImageUpload)
    (rest : List ImageUpload) (eff : Effects) :
    (allowedExt (pyStripS (pyLowerS up.content_type)) = none →
      processImages cfg w lead_id dets idx (up :: rest) eff =
        .err 400 ("Tipo de imagen no permitido: " ++ pyStripS (pyLowerS up.content_type) ++
          ". Usa JPG/PNG/WEBP.") eff) ∧
    (∀ ext, allowedExt (pyStripS (pyLowerS up.content_type)) = some ext →
      up.content.length ≤ 0 →
      processImages cfg w lead_id dets idx (up :: rest) eff =
        .err 400 "Una imagen viene vacía." eff) ∧
    (∀ ext, allowedExt (pyStripS (pyLowerS up.content_type)) = some ext →
      ¬up.content.length ≤ 0 → up.content.length > cfg.maxImageBytes →
      processImages cfg w lead_id dets idx (up :: rest) eff =
        .err 400 ("Imagen supera el máximo permitido (" ++ toString cfg.maxImageMb ++
          "MB).") eff) := by
  refine ⟨fun h => by simp only [processImages, h], fun ext h hsz => ?_, fun ext h hsz hbig => ?_⟩
  · simp only [processImages, h]
    rw [if_pos hsz]
  · simp only [processImages, h]
    rw [if_neg hsz, if_pos hbig]

/-- Witness for C3 amended: the three check outcomes at concrete inputs —
a nonempty gif fails the type check, an empty jpeg fails the emptiness
check, and (with the ceiling configured to 0 MiB) a 1-byte jpeg fails the
size check. -/
theorem media_check_order_witness :
    processImages defaultConfig allOkWorld 1 ["d"] 0
        [{ filename := "x.gif", content_type := "image/gif", content := [1] }]
        emptyEffects =
      .err 400 ("Tipo de imagen no permitido: " ++ pyStripS (pyLowerS "image/gif") ++
        ". Usa JPG/PNG/WEBP.") emptyEffects ∧
    processImages defaultConfig allOkWorld 1 ["d"] 0
        [{ filename := "a", content_type := "image/jpeg", content := [] }]
        emptyEffects =
      .err 400 "Una imagen viene vacía." emptyEffects ∧
    processImages { defaultConfig with maxImageMb := 0 } allOkWorld 1 ["d"] 0
        [{ filename := "a", content_type := "image/jpeg", content := [9] }]
        emptyEffects =
      .err 400 ("Imagen supera el máximo permitido (" ++
        toString ({ defaultConfig with maxImageMb := 0 } : Config).maxImageMb ++
        "MB).") emptyEffects :=
  ⟨(media_check_order defaultConfig allOkWorld 1 ["d"] 0
      { filename := "x.gif", content_type := "image/gif", content := [1] } []
      emptyEffects).1 rfl,
   (media_check_order defaultConfig allOkWorld 1 ["d"] 0
      { filename := "a", content_type := "image/jpeg", content := [] } []
      emptyEffects).2.1 ".jpg" rfl (by decide),
   (media_check_order { defaultConfig with maxImageMb := 0 } allOkWorld 1 ["d"] 0
      { filename := "a", content_type := "image/jpeg", content := [9] } []
      emptyEffects).2.2 ".jpg" rfl (by decide) (by decide)⟩

/-- C4: whenever the `has_design` flag parses as truthy and the strict
one-note-per-image policy is violated — no image, a detail count different
from the image count, or a blank detail — the submission is rejected with a
400 (a mismatched count fails; it is never defaulted to a placeholder) and
no persistence side effect occurs. -/
theorem design_rules_enforced (cfg : Config) (w : World) (f : SubmitForm)
    (hd : truthy f.has_design = true)
    (hbad : f.images.length < 1 ∨ f.details.length ≠ f.images.length ∨
      f.details.any (fun d => pyStripS d = "") = true) :
    ∃ d, d ≠ "" ∧ submit cfg w f = (.httpError 400 d, emptyEffects) :=
  submit_field_fail cfg w f (Or.inr (Or.inr (Or.inr (Or.inr ⟨hd, hbad⟩))))

/-- Witness for C4: one image but two detail notes — the mismatched count
is rejected 400 with no side effect. -/
theorem design_rules_enforced_witness :
    ∃ d, d ≠ "" ∧
      submit defaultConfig allOkWorld c4Form = (.httpError 400 d, emptyEffects) :=
  design_rules_enforced defaultConfig allOkWorld c4Form rfl
    (Or.inr (Or.inl (by decide)))

/-- C5: for an image of an allowed type and nonzero size, the size check
fails `PayloadTooLarge` exactly when the byte size strictly exceeds the
configured maximum; an image of exactly the maximum size passes (boundary
inclusive). The default ceiling is 5 MiB = 5,242,880 bytes. -/
theorem payload_too_large_iff (cfg : Config) (w : World) (lead_id : Nat)
    (dets : List String) (idx : Nat) (up : ImageUpload) (eff : Effects)
    (ext : String)
    (hct : allowedExt (pyStripS (pyLowerS up.content_type)) = some ext)
    (hsz : up.content.length ≠ 0) :
    (processImages cfg w lead_id dets idx [up] eff =
        .err 400 ("Imagen supera el máximo permitido (" ++ toString cfg.maxImageMb ++
          "MB).") eff
      ↔ cfg.maxImageBytes < up.content.length) ∧
    defaultConfig.maxImageBytes = 5242880 := by
  refine ⟨?_, by decide⟩
  simp only [processImages, hct]
  rw [if_neg (by omega : ¬up.content.length ≤ 0)]
  by_cases hbig : up.content.length > cfg.maxImageBytes
  · rw [if_pos hbig]
    exact ⟨fun _ => hbig, fun _ => rfl⟩
  · rw [if_neg hbig]
    constructor
    · intro h
      split_ifs at h <;> simp_all [processImages]
    · intro h
      exact absurd h hbig

/-- Witness for C5: with the ceiling configured to 0 bytes a 1-byte image
is oversized, and the default ceiling is 5,242,880 bytes. -/
theorem payload_too_large_iff_witness :
    (processImages { defaultConfig with maxImageMb := 0 } allOkWorld 1 [] 0
        [{ filename := "a", content_type := "image/jpeg", content := [7] }]
        emptyEffects =
      .err 400 ("Imagen supera el máximo permitido (" ++
        toString ({ defaultConfig with maxImageMb := 0 } : Config).maxImageMb ++
        "MB).") emptyEffects
      ↔ ({ defaultConfig with maxImageMb := 0 } : Config).maxImageBytes < 1) ∧
    defaultConfig.maxImageBytes = 5242880 :=
  payload_too_large_iff { defaultConfig with maxImageMb := 0 } allOkWorld 1 [] 0
    { filename := "a", content_type := "image/jpeg", content := [7] }
    emptyEffects ".jpg" rfl (by decide)

end Chatbot
